import Mathlib

/-!
Verification development for the Sistema-de-reacciones-quimicas frontend.

The definitions below are shallow embeddings of the JavaScript/JSX source:

* selection handlers of the two App components and of the PeriodicTable
  component (handleElementSelect, handleClear, handleSelectSuggestion,
  handleViewAtomicModel, handleSelect);
* the REST client function validateReaction and the request sequence issued
  by handleReact;
* the electron-shell table and fallback of ReactionViewer.jsx, and the
  fallback-only variant of ExplanationPanel.jsx;
* the static elementsData table with the fields used by getElementBySymbol
  and getGridPosition;
* a small IEEE-style value domain used to trace the NaN produced by the
  nucleus particle generator of ReactionViewer.jsx.

JavaScript numbers appearing in control flow are modelled as Nat/Int/Rat;
nullable JSON fields as Option; thrown errors as Except.
-/

namespace SistemaReacciones

/-- Element object as stored in a selection list.  The selection handlers
only inspect the symbol field; handleSelectSuggestion additionally builds
records with name set to the symbol and a null atomic_number, so those two
fields are kept as well. -/
structure UiElement where
  symbol : String
  name : String
  atomicNumber : Option Nat
  deriving DecidableEq, Repr

/-- Membership test used throughout the handlers:
prev.some(x => x.symbol === element.symbol). -/
def selHas (sel : List UiElement) (s : String) : Bool :=
  sel.any (fun x => x.symbol == s)

/-- Updater passed to setSelectedElements by handleElementSelect in App
(src/unnamed/part_000 lines 37-46): remove every entry sharing the symbol if
one is present, otherwise append, but only below the cap of 5. -/
def appSelectList (prev : List UiElement) (e : UiElement) : List UiElement :=
  if selHas prev e.symbol then
    prev.filter (fun x => x.symbol != e.symbol)
  else if 5 ≤ prev.length then
    prev
  else
    prev ++ [e]

/-- Updater of handleSelect in the PeriodicTable component
(src/unnamed/part_002 lines 227-250): remove if already selected; with the
multi-select modifier append below the cap of 10; otherwise replace the
whole selection with the clicked element. -/
def ptHandleSelect (prev : List UiElement) (e : UiElement)
    (isMultiSelect : Bool) : List UiElement :=
  if selHas prev e.symbol then
    prev.filter (fun x => x.symbol != e.symbol)
  else if isMultiSelect then
    (if 10 ≤ prev.length then prev else prev ++ [e])
  else
    [e]

/-- Reactant entry of a suggestion object; the symbol field may be absent. -/
structure SuggestionReactant where
  symbol : Option String
  deriving DecidableEq, Repr

/-- Suggestion object as consumed by handleSelectSuggestion; the reactants
field may be absent. -/
structure Suggestion where
  id : Nat
  reactants : Option (List SuggestionReactant)
  description : Option String
  deriving DecidableEq, Repr

/-- Symbol extraction loop of handleSelectSuggestion (src/unnamed/part_000
lines 136-143): keep each reactant symbol that is present and truthy
(a JavaScript empty string is falsy). -/
def suggestionSymbols (s : Suggestion) : List String :=
  match s.reactants with
  | none => []
  | some rs =>
      rs.foldr (fun r acc =>
        match r.symbol with
        | some str => if str = "" then acc else str :: acc
        | none => acc) []

/-- Selection-relevant part of the App component state: the selected list and
the element shown in the info panel.  The four operations below read and
write no other state field when computing the new selection. -/
structure AppState where
  selected : List UiElement
  active : Option UiElement
  deriving DecidableEq, Repr

/-- Initial App state: empty selection, no active element. -/
def initialAppState : AppState := { selected := [], active := none }

/-- Operations on the App selection state covered by the invariant claim. -/
inductive AppOp where
  | select (e : UiElement)
  | clear
  | selectSuggestion (s : Suggestion)
  | viewAtomicModel
  deriving DecidableEq, Repr

/-- Effect of one operation, read off the four handlers in
src/unnamed/part_000: handleElementSelect also records the clicked element
as active; handleClear resets both fields; handleSelectSuggestion replaces
the selection with simplified records built from the suggestion reactant
symbols; handleViewAtomicModel appends the active element when its symbol is
not yet selected, with no cap check. -/
def appStep (st : AppState) : AppOp → AppState
  | .select e => { selected := appSelectList st.selected e, active := some e }
  | .clear => { selected := [], active := none }
  | .selectSuggestion s =>
      { st with selected :=
          (suggestionSymbols s).map (fun sym =>
            { symbol := sym, name := sym, atomicNumber := none }) }
  | .viewAtomicModel =>
      match st.active with
      | none => st
      | some a =>
          if selHas st.selected a.symbol then st
          else { st with selected := st.selected ++ [a] }

/-- Run a sequence of operations from a state. -/
def appRun (st : AppState) (ops : List AppOp) : AppState :=
  ops.foldl appStep st

/-- Operations other than handleSelectSuggestion. -/
def AppOp.noSuggestion : AppOp → Prop
  | .selectSuggestion _ => False
  | _ => True

/-- Operations restricted to handleElementSelect and handleClear. -/
def AppOp.basicOp : AppOp → Prop
  | .select _ => True
  | .clear => True
  | _ => False

instance : DecidablePred AppOp.noSuggestion := by
  intro op; cases op <;> simp [AppOp.noSuggestion] <;> infer_instance

instance : DecidablePred AppOp.basicOp := by
  intro op; cases op <;> simp [AppOp.basicOp] <;> infer_instance

/-- Reaction record as consumed by handleReact: only the id, the displayed
equation and the fallback description are read by the modelled code paths. -/
structure ReactionRec where
  id : Nat
  equation : String
  description : Option String
  deriving DecidableEq, Repr

/-- Response body of POST /reactions/validate/ as read by handleReact.  The
reactions and suggestions arrays may be absent from the JSON. -/
structure ValidateResult where
  found : Bool
  reactions : Option (List ReactionRec)
  suggestions : Option (List ReactionRec)
  deriving DecidableEq, Repr

/-- Server-side error object carried inside a failed axios response. -/
structure ServerError where
  message : String
  deriving DecidableEq, Repr

/-- Failure of an axios request; responseError models the optional chain
error.response?.data?.error. -/
structure AxiosFailure where
  responseError : Option ServerError
  deriving DecidableEq, Repr

/-- Error value thrown by the api.js wrappers and caught by handleReact. -/
structure ThrownError where
  message : String
  deriving DecidableEq, Repr

/-- Fixed message thrown by validateReaction when the failure carries no
server error object. -/
def genericValidateError : String := "Error al validar la reacción"

/-- Message shown by handleReact when the thrown error has an empty message. -/
def serverDownMsg : String :=
  "Error al validar la reacción. Verifica que el servidor esté en ejecución."

/-- Fallback explanation used when the explanation request fails and the
reaction has no description. -/
def noExplanationMsg : String := "Explicación no disponible."

/-- Error banner for the suggestions outcome with a single selected symbol. -/
def singleSuggestionMsg (sym : String) : String :=
  s!"Reacciones posibles con {sym}:"

/-- Error banner for the suggestions outcome with several selected symbols. -/
def multiSuggestionMsg (symbols : List String) : String :=
  let joined := String.intercalate " + " symbols
  s!"No hay reacción directa entre {joined}. Mira las sugerencias:"

/-- Error banner for the outcome with no reactions and no suggestions. -/
def noReactionsMsg (symbols : List String) : String :=
  let names := String.intercalate ", " symbols
  s!"No se encontraron reacciones con {names} en la base de datos. Prueba con otros elementos como H, O, Na, Cl, Fe, Cu, etc."

/-- View-state fields written by handleReact (src/unnamed/part_000 lines
57-102). -/
structure ReactViewState where
  reaction : Option ReactionRec
  showReaction : Bool
  suggestions : List ReactionRec
  explanation : Option String
  error : Option String
  isLoading : Bool
  deriving DecidableEq, Repr

/-- View state on first render. -/
def emptyReactState : ReactViewState :=
  { reaction := none, showReaction := false, suggestions := [],
    explanation := none, error := none, isLoading := false }

/-- State transformation performed by one run of handleReact, with the
validation response (or thrown error) and the explanation response passed in
as the outcomes of the two awaited requests.  The early return fires for an
empty selection; otherwise the three branches mirror the if/else-if/else
chain, and the catch branch mirrors lines 96-99.  JavaScript disjunctions
with string fallbacks treat the empty string as falsy. -/
def handleReact (symbols : List String) (vres : Except ThrownError ValidateResult)
    (explainRes : Except Unit String) (st : ReactViewState) : ReactViewState :=
  if symbols.length < 1 then st
  else
    match vres with
    | .ok result =>
        match result.found, result.reactions with
        | true, some (r0 :: _) =>
            let expl :=
              match explainRes with
              | .ok e => e
              | .error _ =>
                  match r0.description with
                  | some d => if d = "" then noExplanationMsg else d
                  | none => noExplanationMsg
            { st with reaction := some r0, showReaction := true,
                      explanation := some expl, suggestions := [],
                      error := none, isLoading := false }
        | _, _ =>
            match result.suggestions with
            | some (s0 :: rest) =>
                { st with suggestions := s0 :: rest,
                          error := some (if symbols.length = 1 then
                              singleSuggestionMsg (symbols.headD "")
                            else multiSuggestionMsg symbols),
                          isLoading := false }
            | _ =>
                { st with suggestions := [],
                          error := some (noReactionsMsg symbols),
                          isLoading := false }
    | .error err =>
        { st with suggestions := [],
                  error := some (if err.message = "" then serverDownMsg
                    else err.message),
                  isLoading := false }

/-- Condition under which handleReact takes its first branch: validation
succeeded with found true and a non-empty reactions array. -/
def foundNonemptyB : Except ThrownError ValidateResult → Bool
  | .ok r => r.found && (match r.reactions with
      | some (_ :: _) => true
      | _ => false)
  | .error _ => false

/-- Condition under which handleReact takes its suggestions branch. -/
def hasSuggestionsB : Except ThrownError ValidateResult → Bool
  | .ok r => (match r.suggestions with
      | some (_ :: _) => true
      | _ => false)
  | .error _ => false

/-- First reaction of a successful found response, the one handleReact
displays and requests an explanation for. -/
def firstFoundReaction : Except ThrownError ValidateResult → Option ReactionRec
  | .ok r => match r.found, r.reactions with
      | true, some (r0 :: _) => some r0
      | _, _ => none
  | .error _ => none

/-- Network request issued through the api.js client. -/
inductive ApiRequest where
  | validate (elements : List String)
  | explain (reactionId : Nat) (level : String)
  deriving DecidableEq, Repr

/-- Sequence of network requests issued by one run of handleReact, in
program order.  The await on validateReaction completes before control
reaches the branch that may issue getReactionExplanation, so the list order
is the temporal order of the requests. -/
def handleReactTrace (symbols : List String)
    (vres : Except ThrownError ValidateResult) (level : String) :
    List ApiRequest :=
  if symbols.length < 1 then []
  else
    .validate symbols ::
      (match vres with
       | .ok result =>
           match result.found, result.reactions with
           | true, some (r0 :: _) => [.explain r0.id level]
           | _, _ => []
       | .error _ => [])

/-- Request posted by validateReaction: the endpoint and the body, whose
single field elements carries the symbol array. -/
structure PostRequest where
  url : String
  elements : List String
  deriving DecidableEq, Repr

/-- Request built by validateReaction (src/frontend/src/services/api.js
lines 43-55): the symbols array is passed through as the elements field. -/
def validateRequest (symbols : List String) : PostRequest :=
  { url := "/reactions/validate/", elements := symbols }

/-- Shallow embedding of validateReaction, with the HTTP layer abstracted as
a transport function: on success the response data is returned unchanged; on
failure an Error is thrown whose message is the server error message when
error.response?.data?.error is present and the fixed generic message
otherwise. -/
def validateReaction
    (transport : PostRequest → Except AxiosFailure ValidateResult)
    (symbols : List String) : Except ThrownError ValidateResult :=
  match transport (validateRequest symbols) with
  | .ok data => .ok data
  | .error e =>
      match e.responseError with
      | some se => .error { message := se.message }
      | none => .error { message := genericValidateError }

/-- Static electron-shell table of ReactionViewer.jsx (lines 16-22), keyed
by atomic number. -/
def ELECTRON_SHELLS : List (Nat × List Nat) :=
  [(1, [1]), (2, [2]), (3, [2, 1]), (4, [2, 2]), (5, [2, 3]), (6, [2, 4]),
   (7, [2, 5]), (8, [2, 6]), (9, [2, 7]), (10, [2, 8]), (11, [2, 8, 1]),
   (12, [2, 8, 2]), (13, [2, 8, 3]), (14, [2, 8, 4]), (15, [2, 8, 5]),
   (16, [2, 8, 6]), (17, [2, 8, 7]), (18, [2, 8, 8]), (19, [2, 8, 8, 1]),
   (20, [2, 8, 8, 2]), (26, [2, 8, 14, 2]), (29, [2, 8, 18, 1]),
   (30, [2, 8, 18, 2]), (47, [2, 8, 18, 18, 1]), (79, [2, 8, 18, 32, 18, 1])]

/-- Per-shell capacities used by both fallback loops. -/
def maxPerShell : List Nat := [2, 8, 18, 32, 32, 18, 8]

/-- Fallback loop shared by getElectronShells in ReactionViewer.jsx (lines
30-37) and by AtomicStructure.getElectronShells in ExplanationPanel.jsx:
walk the capacities while electrons remain, pushing min(remaining, cap). -/
def fillShellsLoop : Nat → List Nat → List Nat
  | _, [] => []
  | remaining, cap :: rest =>
      if remaining = 0 then []
      else min remaining cap :: fillShellsLoop (remaining - min remaining cap) rest

/-- Embedding of getElectronShells (ReactionViewer.jsx lines 25-39): return
the table entry when the atomic number is a key, else run the fallback. -/
def getElectronShells (atomicNumber : Nat) : List Nat :=
  match ELECTRON_SHELLS.lookup atomicNumber with
  | some shells => shells
  | none => fillShellsLoop atomicNumber maxPerShell

/-- Embedding of the local getElectronShells inside AtomicStructure in
ExplanationPanel.jsx: this variant has no table and always runs the
fallback loop. -/
def atomicStructureGetElectronShells (z : Nat) : List Nat :=
  fillShellsLoop z maxPerShell

/-- Fields of an elementsData record (src/unnamed/part_001 lines 40-180)
consulted by getElementBySymbol and getGridPosition; display-only fields
(names, colors, masses) are omitted from the embedding. -/
structure ElementData where
  atomicNumber : Nat
  symbol : String
  category : String
  group : Nat
  period : Nat
  deriving DecidableEq, Repr

/-- Static table of the 118 chemical elements (src/unnamed/part_001 lines
40-180), restricted to the embedded fields. -/
def elementsData : List ElementData := [
  ElementData.mk 1 "H" "nonmetal" 1 1,
  ElementData.mk 2 "He" "noble-gas" 18 1,
  ElementData.mk 3 "Li" "alkali-metal" 1 2,
  ElementData.mk 4 "Be" "alkaline-earth" 2 2,
  ElementData.mk 5 "B" "metalloid" 13 2,
  ElementData.mk 6 "C" "nonmetal" 14 2,
  ElementData.mk 7 "N" "nonmetal" 15 2,
  ElementData.mk 8 "O" "nonmetal" 16 2,
  ElementData.mk 9 "F" "halogen" 17 2,
  ElementData.mk 10 "Ne" "noble-gas" 18 2,
  ElementData.mk 11 "Na" "alkali-metal" 1 3,
  ElementData.mk 12 "Mg" "alkaline-earth" 2 3,
  ElementData.mk 13 "Al" "post-transition-metal" 13 3,
  ElementData.mk 14 "Si" "metalloid" 14 3,
  ElementData.mk 15 "P" "nonmetal" 15 3,
  ElementData.mk 16 "S" "nonmetal" 16 3,
  ElementData.mk 17 "Cl" "halogen" 17 3,
  ElementData.mk 18 "Ar" "noble-gas" 18 3,
  ElementData.mk 19 "K" "alkali-metal" 1 4,
  ElementData.mk 20 "Ca" "alkaline-earth" 2 4,
  ElementData.mk 21 "Sc" "transition-metal" 3 4,
  ElementData.mk 22 "Ti" "transition-metal" 4 4,
  ElementData.mk 23 "V" "transition-metal" 5 4,
  ElementData.mk 24 "Cr" "transition-metal" 6 4,
  ElementData.mk 25 "Mn" "transition-metal" 7 4,
  ElementData.mk 26 "Fe" "transition-metal" 8 4,
  ElementData.mk 27 "Co" "transition-metal" 9 4,
  ElementData.mk 28 "Ni" "transition-metal" 10 4,
  ElementData.mk 29 "Cu" "transition-metal" 11 4,
  ElementData.mk 30 "Zn" "transition-metal" 12 4,
  ElementData.mk 31 "Ga" "post-transition-metal" 13 4,
  ElementData.mk 32 "Ge" "metalloid" 14 4,
  ElementData.mk 33 "As" "metalloid" 15 4,
  ElementData.mk 34 "Se" "nonmetal" 16 4,
  ElementData.mk 35 "Br" "halogen" 17 4,
  ElementData.mk 36 "Kr" "noble-gas" 18 4,
  ElementData.mk 37 "Rb" "alkali-metal" 1 5,
  ElementData.mk 38 "Sr" "alkaline-earth" 2 5,
  ElementData.mk 39 "Y" "transition-metal" 3 5,
  ElementData.mk 40 "Zr" "transition-metal" 4 5,
  ElementData.mk 41 "Nb" "transition-metal" 5 5,
  ElementData.mk 42 "Mo" "transition-metal" 6 5,
  ElementData.mk 43 "Tc" "transition-metal" 7 5,
  ElementData.mk 44 "Ru" "transition-metal" 8 5,
  ElementData.mk 45 "Rh" "transition-metal" 9 5,
  ElementData.mk 46 "Pd" "transition-metal" 10 5,
  ElementData.mk 47 "Ag" "transition-metal" 11 5,
  ElementData.mk 48 "Cd" "transition-metal" 12 5,
  ElementData.mk 49 "In" "post-transition-metal" 13 5,
  ElementData.mk 50 "Sn" "post-transition-metal" 14 5,
  ElementData.mk 51 "Sb" "metalloid" 15 5,
  ElementData.mk 52 "Te" "metalloid" 16 5,
  ElementData.mk 53 "I" "halogen" 17 5,
  ElementData.mk 54 "Xe" "noble-gas" 18 5,
  ElementData.mk 55 "Cs" "alkali-metal" 1 6,
  ElementData.mk 56 "Ba" "alkaline-earth" 2 6,
  ElementData.mk 57 "La" "lanthanide" 3 6,
  ElementData.mk 58 "Ce" "lanthanide" 3 6,
  ElementData.mk 59 "Pr" "lanthanide" 3 6,
  ElementData.mk 60 "Nd" "lanthanide" 3 6,
  ElementData.mk 61 "Pm" "lanthanide" 3 6,
  ElementData.mk 62 "Sm" "lanthanide" 3 6,
  ElementData.mk 63 "Eu" "lanthanide" 3 6,
  ElementData.mk 64 "Gd" "lanthanide" 3 6,
  ElementData.mk 65 "Tb" "lanthanide" 3 6,
  ElementData.mk 66 "Dy" "lanthanide" 3 6,
  ElementData.mk 67 "Ho" "lanthanide" 3 6,
  ElementData.mk 68 "Er" "lanthanide" 3 6,
  ElementData.mk 69 "Tm" "lanthanide" 3 6,
  ElementData.mk 70 "Yb" "lanthanide" 3 6,
  ElementData.mk 71 "Lu" "lanthanide" 3 6,
  ElementData.mk 72 "Hf" "transition-metal" 4 6,
  ElementData.mk 73 "Ta" "transition-metal" 5 6,
  ElementData.mk 74 "W" "transition-metal" 6 6,
  ElementData.mk 75 "Re" "transition-metal" 7 6,
  ElementData.mk 76 "Os" "transition-metal" 8 6,
  ElementData.mk 77 "Ir" "transition-metal" 9 6,
  ElementData.mk 78 "Pt" "transition-metal" 10 6,
  ElementData.mk 79 "Au" "transition-metal" 11 6,
  ElementData.mk 80 "Hg" "transition-metal" 12 6,
  ElementData.mk 81 "Tl" "post-transition-metal" 13 6,
  ElementData.mk 82 "Pb" "post-transition-metal" 14 6,
  ElementData.mk 83 "Bi" "post-transition-metal" 15 6,
  ElementData.mk 84 "Po" "metalloid" 16 6,
  ElementData.mk 85 "At" "halogen" 17 6,
  ElementData.mk 86 "Rn" "noble-gas" 18 6,
  ElementData.mk 87 "Fr" "alkali-metal" 1 7,
  ElementData.mk 88 "Ra" "alkaline-earth" 2 7,
  ElementData.mk 89 "Ac" "actinide" 3 7,
  ElementData.mk 90 "Th" "actinide" 3 7,
  ElementData.mk 91 "Pa" "actinide" 3 7,
  ElementData.mk 92 "U" "actinide" 3 7,
  ElementData.mk 93 "Np" "actinide" 3 7,
  ElementData.mk 94 "Pu" "actinide" 3 7,
  ElementData.mk 95 "Am" "actinide" 3 7,
  ElementData.mk 96 "Cm" "actinide" 3 7,
  ElementData.mk 97 "Bk" "actinide" 3 7,
  ElementData.mk 98 "Cf" "actinide" 3 7,
  ElementData.mk 99 "Es" "actinide" 3 7,
  ElementData.mk 100 "Fm" "actinide" 3 7,
  ElementData.mk 101 "Md" "actinide" 3 7,
  ElementData.mk 102 "No" "actinide" 3 7,
  ElementData.mk 103 "Lr" "actinide" 3 7,
  ElementData.mk 104 "Rf" "transition-metal" 4 7,
  ElementData.mk 105 "Db" "transition-metal" 5 7,
  ElementData.mk 106 "Sg" "transition-metal" 6 7,
  ElementData.mk 107 "Bh" "transition-metal" 7 7,
  ElementData.mk 108 "Hs" "transition-metal" 8 7,
  ElementData.mk 109 "Mt" "unknown" 9 7,
  ElementData.mk 110 "Ds" "unknown" 10 7,
  ElementData.mk 111 "Rg" "unknown" 11 7,
  ElementData.mk 112 "Cn" "unknown" 12 7,
  ElementData.mk 113 "Nh" "unknown" 13 7,
  ElementData.mk 114 "Fl" "unknown" 14 7,
  ElementData.mk 115 "Mc" "unknown" 15 7,
  ElementData.mk 116 "Lv" "unknown" 16 7,
  ElementData.mk 117 "Ts" "unknown" 17 7,
  ElementData.mk 118 "Og" "unknown" 18 7
]


/-- Model of String.prototype.toLowerCase restricted to the ASCII strings
appearing in the element table: lower-case each character. -/
def lowerString (s : String) : String :=
  ⟨s.data.map Char.toLower⟩

/-- Embedding of getElementBySymbol (src/unnamed/part_001 lines 183-185):
first entry whose lower-cased symbol equals the lower-cased argument. -/
def getElementBySymbol (symbol : String) : Option ElementData :=
  elementsData.find? (fun el => lowerString el.symbol == lowerString symbol)

/-- Embedding of getGridPosition (src/unnamed/part_002 lines 10-26):
lanthanides go to row 9, actinides to row 10, both starting at column 3;
every other element sits at (period, group). -/
def getGridPosition (element : ElementData) : Nat × Nat :=
  if element.category = "lanthanide" then
    (9, element.atomicNumber - 57 + 3)
  else if element.category = "actinide" then
    (10, element.atomicNumber - 89 + 3)
  else
    (element.period, element.group)

/-- JavaScript number value restricted to the arithmetic appearing in the
nucleus particle generator: an exact finite value, NaN, or a signed
infinity.  Finite values are kept as rationals; the rounding of IEEE
operations on finite operands is not modelled, which is irrelevant to the
NaN-propagation facts proved below. -/
inductive JVal where
  | fin (q : ℚ)
  | nan
  | pinf
  | ninf
  deriving DecidableEq, Repr

/-- Finiteness test: Number.isFinite. -/
def JVal.isFinite : JVal → Bool
  | .fin _ => true
  | _ => false

/-- Unary minus. -/
def jneg : JVal → JVal
  | .fin a => .fin (-a)
  | .nan => .nan
  | .pinf => .ninf
  | .ninf => .pinf

/-- IEEE addition: NaN absorbs, opposite infinities give NaN. -/
def jadd : JVal → JVal → JVal
  | .nan, _ => .nan
  | _, .nan => .nan
  | .fin a, .fin b => .fin (a + b)
  | .pinf, .ninf => .nan
  | .ninf, .pinf => .nan
  | .pinf, _ => .pinf
  | _, .pinf => .pinf
  | .ninf, _ => .ninf
  | _, .ninf => .ninf

/-- IEEE subtraction. -/
def jsub (a b : JVal) : JVal := jadd a (jneg b)

/-- IEEE multiplication: NaN absorbs, zero times infinity gives NaN. -/
def jmul : JVal → JVal → JVal
  | .nan, _ => .nan
  | _, .nan => .nan
  | .fin a, .fin b => .fin (a * b)
  | .fin a, .pinf => if a = 0 then .nan else if 0 < a then .pinf else .ninf
  | .fin a, .ninf => if a = 0 then .nan else if 0 < a then .ninf else .pinf
  | .pinf, .fin b => if b = 0 then .nan else if 0 < b then .pinf else .ninf
  | .ninf, .fin b => if b = 0 then .nan else if 0 < b then .ninf else .pinf
  | .pinf, .pinf => .pinf
  | .pinf, .ninf => .ninf
  | .ninf, .pinf => .ninf
  | .ninf, .ninf => .pinf

/-- IEEE division: NaN absorbs, zero over zero gives NaN, a nonzero finite
value over zero gives a signed infinity. -/
def jdiv : JVal → JVal → JVal
  | .nan, _ => .nan
  | _, .nan => .nan
  | .fin a, .fin b =>
      if b = 0 then (if a = 0 then .nan else if 0 < a then .pinf else .ninf)
      else .fin (a / b)
  | .fin _, .pinf => .fin 0
  | .fin _, .ninf => .fin 0
  | .pinf, .fin b => if 0 ≤ b then .pinf else .ninf
  | .ninf, .fin b => if 0 ≤ b then .ninf else .pinf
  | .pinf, .pinf => .nan
  | .pinf, .ninf => .nan
  | .ninf, .pinf => .nan
  | .ninf, .ninf => .nan

/-- Math.min: NaN if either argument is NaN, otherwise the smaller value. -/
def jmin : JVal → JVal → JVal
  | .nan, _ => .nan
  | _, .nan => .nan
  | .fin x, .fin y => .fin (min x y)
  | .ninf, _ => .ninf
  | _, .ninf => .ninf
  | .pinf, .fin y => .fin y
  | .fin x, .pinf => .fin x
  | .pinf, .pinf => .pinf

/-- Math.round for a finite value: floor of the value plus one half (ties go
toward positive infinity). -/
def jsRound (q : ℚ) : ℤ := ⌊q + 1 / 2⌋

/-- Proton and neutron counts computed by AtomicModel
(ReactionViewer.jsx lines 125-127): massNumber is the rounded atomic mass
(defaulting to twice the atomic number) and the neutron count is clamped at
zero. -/
def atomicModelCounts (atomic_number : Option Nat) (atomic_mass : Option ℚ) :
    Nat × Nat :=
  let z := atomic_number.getD 1
  let mass : ℚ := atomic_mass.getD (z * 2)
  let massNumber : ℤ := jsRound mass
  (z, (massNumber - z).toNat)

/-- One nucleus particle: three coordinates and the proton flag. -/
structure NucleusParticle where
  x : JVal
  y : JVal
  z : JVal
  isProton : Bool
  deriving DecidableEq, Repr

/-- Embedding of the nucleusParticles generator of AtomicModel
(ReactionViewer.jsx lines 131-153).  The irrational golden angle, Math.sqrt,
Math.cos, Math.sin and Math.random are taken as parameters, so every theorem
below holds for every choice of them; the i-th loop iteration draws
rand (2i) inside theta and rand (2i+1) inside scale, in source order. -/
def nucleusParticles (atomicNumber neutronCount : Nat)
    (sqrtF cosF sinF : JVal → JVal) (goldenAngle : JVal)
    (rand : Nat → JVal) : List NucleusParticle :=
  let total := atomicNumber + neutronCount
  let nucleusRadius :=
    jmin (.fin (8 / 10))
      (jadd (.fin (2 / 10)) (jmul (.fin (total : ℚ)) (.fin (2 / 100))))
  (List.range total).map (fun (i : Nat) =>
    let y := jsub (.fin 1)
      (jmul (jdiv (.fin (i : ℚ)) (.fin ((total - 1 : Nat) : ℚ))) (.fin 2))
    let radius := sqrtF (jsub (.fin 1) (jmul y y))
    let theta := jadd (jmul goldenAngle (.fin (i : ℚ)))
      (jmul (rand (2 * i)) (.fin (3 / 10)))
    let scale := jmul nucleusRadius
      (jadd (.fin (1 / 2)) (jmul (rand (2 * i + 1)) (.fin (1 / 2))))
    { x := jmul (jmul (cosF theta) radius) scale,
      y := jmul y scale,
      z := jmul (jmul (sinF theta) radius) scale,
      isProton := decide (i < atomicNumber) })

/-- Helper element record with placeholder display fields, as used in
concrete scenarios. -/
def mkElem (s : String) : UiElement :=
  { symbol := s, name := s, atomicNumber := none }

/-- Filtering out a symbol removes every entry carrying it. -/
theorem selHas_filter_self (sel : List UiElement) (s : String) :
    selHas (sel.filter (fun x => x.symbol != s)) s = false := by
  simp [selHas, List.any_filter]

/-- Appending an element makes its symbol selected. -/
theorem selHas_append_self (sel : List UiElement) (e : UiElement) :
    selHas (sel ++ [e]) e.symbol = true := by
  simp [selHas, List.any_append]

/-- Filtering out a symbol that is present strictly shrinks the list. -/
theorem length_filter_lt_of_selHas (sel : List UiElement) (s : String)
    (h : selHas sel s = true) :
    (sel.filter (fun x => x.symbol != s)).length < sel.length := by
  rw [List.length_filter_lt_length_iff_exists]
  rcases List.any_eq_true.mp h with ⟨x, hx, hxs⟩
  exact ⟨x, hx, by simpa using hxs⟩

/-- A symbol reported unselected occurs on no entry. -/
theorem not_mem_map_of_selHas_false {sel : List UiElement} {s : String}
    (h : selHas sel s = false) : s ∉ sel.map (fun x => x.symbol) := by
  intro hmem
  rcases List.mem_map.mp hmem with ⟨x, hx, hxs⟩
  have hx' := List.any_eq_false.mp h x hx
  simp [hxs] at hx'

/-- Double click on the App selection: membership of the clicked symbol is
restored whenever the selection holds at most five entries. -/
theorem appSelectList_double (sel : List UiElement) (e : UiElement)
    (hlen : sel.length ≤ 5) :
    selHas (appSelectList (appSelectList sel e) e) e.symbol
      = selHas sel e.symbol := by
  by_cases h : selHas sel e.symbol = true
  · have h1 : appSelectList sel e = sel.filter (fun x => x.symbol != e.symbol) := by
      simp [appSelectList, h]
    have h2 := selHas_filter_self sel e.symbol
    have h3 : (sel.filter (fun x => x.symbol != e.symbol)).length < 5 :=
      lt_of_lt_of_le (length_filter_lt_of_selHas sel e.symbol h) hlen
    have h4 : appSelectList (sel.filter (fun x => x.symbol != e.symbol)) e
        = sel.filter (fun x => x.symbol != e.symbol) ++ [e] := by
      simp [appSelectList, h2, Nat.not_le.mpr h3]
    rw [h1, h4, selHas_append_self, h]
  · have h' : selHas sel e.symbol = false := by simpa using h
    by_cases h5 : 5 ≤ sel.length
    · have h1 : appSelectList sel e = sel := by simp [appSelectList, h', h5]
      rw [h1, h1]
    · have h1 : appSelectList sel e = sel ++ [e] := by
        simp [appSelectList, h', h5]
      have h2 := selHas_append_self sel e
      have h3 : appSelectList (sel ++ [e]) e
          = (sel ++ [e]).filter (fun x => x.symbol != e.symbol) := by
        simp [appSelectList, h2]
      rw [h1, h3, selHas_filter_self, h']

/-- Double click on the PeriodicTable selection with a fixed multi-select
modality: membership of the clicked symbol is restored whenever the
selection holds at most ten entries. -/
theorem ptHandleSelect_double (sel : List UiElement) (e : UiElement)
    (m : Bool) (hlen : sel.length ≤ 10) :
    selHas (ptHandleSelect (ptHandleSelect sel e m) e m) e.symbol
      = selHas sel e.symbol := by
  by_cases h : selHas sel e.symbol = true
  · have h1 : ptHandleSelect sel e m
        = sel.filter (fun x => x.symbol != e.symbol) := by
      simp [ptHandleSelect, h]
    have h2 := selHas_filter_self sel e.symbol
    rw [h1, h]
    cases m with
    | false =>
        have h4 : ptHandleSelect (sel.filter (fun x => x.symbol != e.symbol)) e
            false = [e] := by
          simp [ptHandleSelect, h2]
        rw [h4]
        simp [selHas]
    | true =>
        have h3 : (sel.filter (fun x => x.symbol != e.symbol)).length < 10 :=
          lt_of_lt_of_le (length_filter_lt_of_selHas sel e.symbol h) hlen
        have h4 : ptHandleSelect (sel.filter (fun x => x.symbol != e.symbol)) e
            true = sel.filter (fun x => x.symbol != e.symbol) ++ [e] := by
          simp [ptHandleSelect, h2, Nat.not_le.mpr h3]
        rw [h4, selHas_append_self]
  · have h' : selHas sel e.symbol = false := by simpa using h
    cases m with
    | false =>
        have h1 : ptHandleSelect sel e false = [e] := by
          simp [ptHandleSelect, h']
        have h2 : selHas [e] e.symbol = true := by simp [selHas]
        have h3 : ptHandleSelect [e] e false
            = [e].filter (fun x => x.symbol != e.symbol) := by
          simp [ptHandleSelect, h2]
        rw [h1, h3, selHas_filter_self, h']
    | true =>
        by_cases h10 : 10 ≤ sel.length
        · have h1 : ptHandleSelect sel e true = sel := by
            simp [ptHandleSelect, h', h10]
          rw [h1, h1]
        · have h1 : ptHandleSelect sel e true = sel ++ [e] := by
            simp [ptHandleSelect, h', h10]
          have h2 := selHas_append_self sel e
          have h3 : ptHandleSelect (sel ++ [e]) e true
              = (sel ++ [e]).filter (fun x => x.symbol != e.symbol) := by
            simp [ptHandleSelect, h2]
          rw [h1, h3, selHas_filter_self, h']

/-- C1 counterexample: the claim that a click on an unselected element
always adds it fails at the selection cap.  With the five elements H, O,
Na, Cl, Fe selected, a click on the unselected element Cu leaves the
selection unchanged instead of adding Cu. -/
theorem c1_counterexample :
    selHas (List.map mkElem ["H", "O", "Na", "Cl", "Fe"]) "Cu" = false ∧
    appSelectList (List.map mkElem ["H", "O", "Na", "Cl", "Fe"]) (mkElem "Cu")
      = List.map mkElem ["H", "O", "Na", "Cl", "Fe"] :=
  ⟨by decide, by decide⟩

/-- C1 (amended): a click on element e removes e's symbol when it is
selected; when it is unselected the App handler adds e only below the cap
of 5 and otherwise leaves the selection unchanged, while the PeriodicTable
handler adds e below the cap of 10 in multi-select mode, leaves the
selection unchanged at that cap, and replaces the selection by [e] in
single-select mode; two successive clicks (with the same modality) restore
e's membership whenever the selection is within the respective cap. -/
theorem c1_selection_toggle :
    (∀ sel e, selHas sel e.symbol = true →
      selHas (appSelectList sel e) e.symbol = false) ∧
    (∀ sel e, selHas sel e.symbol = false → sel.length < 5 →
      appSelectList sel e = sel ++ [e]) ∧
    (∀ sel e, selHas sel e.symbol = false → 5 ≤ sel.length →
      appSelectList sel e = sel) ∧
    (∀ sel e, sel.length ≤ 5 →
      selHas (appSelectList (appSelectList sel e) e) e.symbol
        = selHas sel e.symbol) ∧
    (∀ sel e m, selHas sel e.symbol = true →
      selHas (ptHandleSelect sel e m) e.symbol = false) ∧
    (∀ sel e, selHas sel e.symbol = false → sel.length < 10 →
      ptHandleSelect sel e true = sel ++ [e]) ∧
    (∀ sel e, selHas sel e.symbol = false → 10 ≤ sel.length →
      ptHandleSelect sel e true = sel) ∧
    (∀ sel e, selHas sel e.symbol = false →
      ptHandleSelect sel e false = [e]) ∧
    (∀ sel e m, sel.length ≤ 10 →
      selHas (ptHandleSelect (ptHandleSelect sel e m) e m) e.symbol
        = selHas sel e.symbol) := by
  refine ⟨?_, ?_, ?_, appSelectList_double, ?_, ?_, ?_, ?_, ptHandleSelect_double⟩
  · intro sel e h
    have h1 : appSelectList sel e
        = sel.filter (fun x => x.symbol != e.symbol) := by
      simp [appSelectList, h]
    rw [h1]
    exact selHas_filter_self sel e.symbol
  · intro sel e h hlen
    simp [appSelectList, h, Nat.not_le.mpr hlen]
  · intro sel e h hlen
    simp [appSelectList, h, hlen]
  · intro sel e m h
    have h1 : ptHandleSelect sel e m
        = sel.filter (fun x => x.symbol != e.symbol) := by
      simp [ptHandleSelect, h]
    rw [h1]
    exact selHas_filter_self sel e.symbol
  · intro sel e h hlen
    simp [ptHandleSelect, h, Nat.not_le.mpr hlen]
  · intro sel e h hlen
    simp [ptHandleSelect, h, hlen]
  · intro sel e h
    simp [ptHandleSelect, h]

/-- C1 witness: each clause of the toggle theorem instantiated on concrete
selections. -/
theorem c1_selection_toggle_witness :
    selHas (appSelectList [mkElem "H"] (mkElem "H")) "H" = false ∧
    appSelectList [] (mkElem "H") = [mkElem "H"] ∧
    appSelectList (List.map mkElem ["H", "O", "Na", "Cl", "Fe"]) (mkElem "Cu")
      = List.map mkElem ["H", "O", "Na", "Cl", "Fe"] ∧
    selHas (appSelectList (appSelectList [mkElem "O"] (mkElem "O")) (mkElem "O"))
      "O" = selHas [mkElem "O"] "O" ∧
    selHas (ptHandleSelect [mkElem "H"] (mkElem "H") true) "H" = false ∧
    ptHandleSelect [] (mkElem "H") true = [mkElem "H"] ∧
    ptHandleSelect
      (List.map mkElem ["B", "C", "N", "F", "P", "S", "K", "V", "Y", "I"])
      (mkElem "W") true
      = List.map mkElem ["B", "C", "N", "F", "P", "S", "K", "V", "Y", "I"] ∧
    ptHandleSelect [mkElem "O"] (mkElem "H") false = [mkElem "H"] ∧
    selHas (ptHandleSelect (ptHandleSelect [] (mkElem "H") false)
      (mkElem "H") false) "H" = selHas [] "H" :=
  ⟨c1_selection_toggle.1 [mkElem "H"] (mkElem "H") (by decide),
   c1_selection_toggle.2.1 [] (mkElem "H") (by decide) (by decide),
   c1_selection_toggle.2.2.1 (List.map mkElem ["H", "O", "Na", "Cl", "Fe"])
     (mkElem "Cu") (by decide) (by decide),
   c1_selection_toggle.2.2.2.1 [mkElem "O"] (mkElem "O") (by decide),
   c1_selection_toggle.2.2.2.2.1 [mkElem "H"] (mkElem "H") true (by decide),
   c1_selection_toggle.2.2.2.2.2.1 [] (mkElem "H") (by decide) (by decide),
   c1_selection_toggle.2.2.2.2.2.2.1
     (List.map mkElem ["B", "C", "N", "F", "P", "S", "K", "V", "Y", "I"])
     (mkElem "W") (by decide) (by decide),
   c1_selection_toggle.2.2.2.2.2.2.2.1 [mkElem "O"] (mkElem "H") (by decide),
   c1_selection_toggle.2.2.2.2.2.2.2.2 [] (mkElem "H") false (by decide)⟩

/-- Appending an element whose symbol is not yet selected keeps the symbol
list duplicate-free. -/
theorem nodup_append_fresh {sel : List UiElement} {e : UiElement}
    (h : (sel.map (fun x => x.symbol)).Nodup)
    (hfresh : selHas sel e.symbol = false) :
    ((sel ++ [e]).map (fun x => x.symbol)).Nodup := by
  rw [List.map_append]
  refine List.Nodup.append h (List.nodup_singleton _) ?_
  intro s hs hs'
  rcases List.mem_singleton.mp hs' with rfl
  exact not_mem_map_of_selHas_false hfresh hs

/-- A click preserves distinctness of the selected symbols. -/
theorem nodup_appSelectList {sel : List UiElement} (e : UiElement)
    (h : (sel.map (fun x => x.symbol)).Nodup) :
    ((appSelectList sel e).map (fun x => x.symbol)).Nodup := by
  unfold appSelectList
  by_cases hs : selHas sel e.symbol = true
  · rw [if_pos hs]
    exact (((List.filter_sublist sel).map _).nodup) h
  · have hs' : selHas sel e.symbol = false := by simpa using hs
    rw [if_neg hs]
    by_cases h5 : 5 ≤ sel.length
    · rw [if_pos h5]; exact h
    · rw [if_neg h5]
      exact nodup_append_fresh h hs'

/-- A click never grows the selection beyond five entries. -/
theorem length_appSelectList_le {sel : List UiElement} (e : UiElement)
    (h : sel.length ≤ 5) : (appSelectList sel e).length ≤ 5 := by
  unfold appSelectList
  by_cases hs : selHas sel e.symbol = true
  · rw [if_pos hs]
    exact le_trans (List.length_filter_le _ _) h
  · rw [if_neg hs]
    by_cases h5 : 5 ≤ sel.length
    · rw [if_pos h5]; exact h
    · rw [if_neg h5]
      simp only [List.length_append, List.length_singleton]
      omega

/-- Every operation except handleSelectSuggestion preserves distinctness of
the selected symbols. -/
theorem nodup_appStep {st : AppState} {op : AppOp}
    (h : (st.selected.map (fun x => x.symbol)).Nodup)
    (hop : op.noSuggestion) :
    (((appStep st op).selected).map (fun x => x.symbol)).Nodup := by
  cases op with
  | select e => exact nodup_appSelectList e h
  | clear => simp [appStep]
  | selectSuggestion s => exact absurd hop (by simp [AppOp.noSuggestion])
  | viewAtomicModel =>
      obtain ⟨sel, act⟩ := st
      cases act with
      | none => simpa [appStep] using h
      | some a =>
          by_cases hs : selHas sel a.symbol = true
          · simpa [appStep, hs] using h
          · have hs' : selHas sel a.symbol = false := by simpa using hs
            simp only [appStep, hs', Bool.false_eq_true, if_false]
            exact nodup_append_fresh h hs'

/-- The two basic operations keep the selection within five entries. -/
theorem length_appStep_le {st : AppState} {op : AppOp}
    (h : st.selected.length ≤ 5) (hop : op.basicOp) :
    ((appStep st op).selected).length ≤ 5 := by
  cases op with
  | select e => exact length_appSelectList_le e h
  | clear => simp [appStep]
  | selectSuggestion s => exact absurd hop (by simp [AppOp.basicOp])
  | viewAtomicModel => exact absurd hop (by simp [AppOp.basicOp])

/-- Sequences avoiding handleSelectSuggestion preserve distinctness from any
state whose selected symbols are distinct. -/
theorem appRun_nodup (ops : List AppOp) (st : AppState)
    (hst : (st.selected.map (fun x => x.symbol)).Nodup)
    (hops : ∀ op ∈ ops, op.noSuggestion) :
    (((appRun st ops).selected).map (fun x => x.symbol)).Nodup := by
  induction ops generalizing st with
  | nil => exact hst
  | cons op rest ih =>
      exact ih (appStep st op)
        (nodup_appStep hst (hops op (List.mem_cons_self op rest)))
        (fun o ho => hops o (List.mem_cons_of_mem op ho))

/-- Sequences of the basic operations keep the selection within five
entries from any state within the bound. -/
theorem appRun_length_le (ops : List AppOp) (st : AppState)
    (hst : st.selected.length ≤ 5)
    (hops : ∀ op ∈ ops, op.basicOp) :
    ((appRun st ops).selected).length ≤ 5 := by
  induction ops generalizing st with
  | nil => exact hst
  | cons op rest ih =>
      exact ih (appStep st op)
        (length_appStep_le hst (hops op (List.mem_cons_self op rest)))
        (fun o ho => hops o (List.mem_cons_of_mem op ho))

/-- Suggestion with six identical reactant symbols, as the backend is free
to return. -/
def dupSuggestion : Suggestion :=
  { id := 0,
    reactants := some (List.replicate 6 { symbol := some "H" }),
    description := none }

/-- C5 counterexample: the invariant fails as stated.  Accepting a
suggestion whose six reactants all carry the symbol H yields a selection of
six duplicate entries, violating both the bound of five and distinctness;
and selecting H, O, Na, Cl, Fe, then clicking Cu (which only records it as
active) and viewing its atomic model yields six selected entries. -/
theorem c5_counterexample :
    5 < (appRun initialAppState [.selectSuggestion dupSuggestion]).selected.length ∧
    ¬ (((appRun initialAppState
          [.selectSuggestion dupSuggestion]).selected.map
        (fun x => x.symbol)).Nodup) ∧
    (appRun initialAppState
      (List.map (fun s => AppOp.select (mkElem s)) ["H", "O", "Na", "Cl", "Fe", "Cu"]
        ++ [AppOp.viewAtomicModel])).selected.length = 6 :=
  ⟨by decide, by decide, by decide⟩

/-- C5 (amended): from the empty selection, any sequence of
handleElementSelect, handleClear and handleViewAtomicModel keeps the
selected symbols pairwise distinct, and any sequence of handleElementSelect
and handleClear alone additionally keeps the selection within five entries;
handleSelectSuggestion preserves neither property in general. -/
theorem c5_selection_invariant :
    (∀ ops : List AppOp, (∀ op ∈ ops, op.noSuggestion) →
      (((appRun initialAppState ops).selected).map (fun x => x.symbol)).Nodup) ∧
    (∀ ops : List AppOp, (∀ op ∈ ops, op.basicOp) →
      ((appRun initialAppState ops).selected).length ≤ 5 ∧
      (((appRun initialAppState ops).selected).map (fun x => x.symbol)).Nodup) := by
  constructor
  · intro ops hops
    exact appRun_nodup ops initialAppState (by simp [initialAppState]) hops
  · intro ops hops
    refine ⟨appRun_length_le ops initialAppState (by simp [initialAppState]) hops, ?_⟩
    refine appRun_nodup ops initialAppState (by simp [initialAppState]) ?_
    intro op hop
    have := hops op hop
    cases op <;> simp_all [AppOp.basicOp, AppOp.noSuggestion]

/-- C5 witness: the invariant theorem instantiated on a concrete operation
sequence that selects H twice (deselecting it), selects O, views the atomic
model and clears. -/
theorem c5_selection_invariant_witness :
    (((appRun initialAppState
        [.select (mkElem "H"), .select (mkElem "O"), .viewAtomicModel]).selected).map
      (fun x => x.symbol)).Nodup ∧
    ((appRun initialAppState
        [.select (mkElem "H"), .select (mkElem "H"), .clear]).selected).length ≤ 5 :=
  ⟨c5_selection_invariant.1
      [.select (mkElem "H"), .select (mkElem "O"), .viewAtomicModel] (by decide),
   (c5_selection_invariant.2
      [.select (mkElem "H"), .select (mkElem "H"), .clear] (by decide)).1⟩

/-- Validation response with found false and empty arrays, which the
backend returns for unknown combinations. -/
def nothingFoundResult : ValidateResult :=
  { found := false, reactions := some [], suggestions := some [] }

/-- C2 counterexample: the two claimed outcomes are not exhaustive.  For a
response with found false and no suggestions, handleReact neither displays
a reaction nor a suggestion list (it only sets an error banner). -/
theorem c2_counterexample :
    ¬ (((handleReact ["Xx"] (.ok nothingFoundResult) (.error ())
          emptyReactState).showReaction = true ∧
        (handleReact ["Xx"] (.ok nothingFoundResult) (.error ())
          emptyReactState).reaction.isSome = true) ∨
       (handleReact ["Xx"] (.ok nothingFoundResult) (.error ())
          emptyReactState).suggestions ≠ []) := by
  decide

/-- C2 (amended): for a non-empty symbol list a run of handleReact ends in
exactly one of three outcomes: the first found reaction is set and
displayed (when the response has found true and a non-empty reactions
list), a non-empty suggestion list is displayed together with an error
banner (otherwise, when the response carries a non-empty suggestions
list), or only an error message is set and the reaction display state is
left untouched (when nothing was found or the request threw). -/
theorem c2_react_outcomes :
    ∀ (symbols : List String) (vres : Except ThrownError ValidateResult)
      (explainRes : Except Unit String) (st st' : ReactViewState),
      symbols ≠ [] →
      st' = handleReact symbols vres explainRes st →
      (foundNonemptyB vres = true ∧ st'.showReaction = true ∧
        st'.reaction = firstFoundReaction vres ∧ st'.reaction.isSome = true ∧
        st'.suggestions = [] ∧ st'.error = none) ∨
      (foundNonemptyB vres = false ∧ hasSuggestionsB vres = true ∧
        st'.suggestions ≠ [] ∧ st'.error.isSome = true ∧
        st'.reaction = st.reaction ∧ st'.showReaction = st.showReaction) ∨
      (foundNonemptyB vres = false ∧ hasSuggestionsB vres = false ∧
        st'.suggestions = [] ∧ st'.error.isSome = true ∧
        st'.reaction = st.reaction ∧ st'.showReaction = st.showReaction) := by
  intro symbols vres explainRes st st' hne hst
  subst hst
  have hlen : ¬ (symbols.length < 1) := by
    cases symbols with
    | nil => exact absurd rfl hne
    | cons a l => simp
  cases vres with
  | error err =>
      simp [handleReact, hlen, foundNonemptyB, hasSuggestionsB]
  | ok result =>
      obtain ⟨found, reactions, suggestions⟩ := result
      cases found <;> rcases reactions with _ | (_ | ⟨r0, rrest⟩) <;>
        rcases suggestions with _ | (_ | ⟨s0, srest⟩) <;>
        simp [handleReact, hlen, foundNonemptyB, hasSuggestionsB,
          firstFoundReaction]

/-- Reaction record of the water synthesis, used as a concrete response. -/
def sampleReaction : ReactionRec :=
  { id := 1, equation := "2H2 + O2 -> 2H2O",
    description := some "Sintesis del agua" }

/-- Validation response that finds the sample reaction. -/
def sampleFoundResult : ValidateResult :=
  { found := true, reactions := some [sampleReaction], suggestions := none }

/-- C2 witness: the outcome theorem instantiated on a found reaction. -/
theorem c2_react_outcomes_witness :
    (foundNonemptyB (.ok sampleFoundResult) = true ∧
      (handleReact ["H", "O"] (.ok sampleFoundResult) (.ok "ok")
        emptyReactState).showReaction = true ∧
      (handleReact ["H", "O"] (.ok sampleFoundResult) (.ok "ok")
        emptyReactState).reaction = firstFoundReaction (.ok sampleFoundResult) ∧
      (handleReact ["H", "O"] (.ok sampleFoundResult) (.ok "ok")
        emptyReactState).reaction.isSome = true ∧
      (handleReact ["H", "O"] (.ok sampleFoundResult) (.ok "ok")
        emptyReactState).suggestions = [] ∧
      (handleReact ["H", "O"] (.ok sampleFoundResult) (.ok "ok")
        emptyReactState).error = none) ∨
    (foundNonemptyB (.ok sampleFoundResult) = false ∧
      hasSuggestionsB (.ok sampleFoundResult) = true ∧
      (handleReact ["H", "O"] (.ok sampleFoundResult) (.ok "ok")
        emptyReactState).suggestions ≠ [] ∧
      (handleReact ["H", "O"] (.ok sampleFoundResult) (.ok "ok")
        emptyReactState).error.isSome = true ∧
      (handleReact ["H", "O"] (.ok sampleFoundResult) (.ok "ok")
        emptyReactState).reaction = emptyReactState.reaction ∧
      (handleReact ["H", "O"] (.ok sampleFoundResult) (.ok "ok")
        emptyReactState).showReaction = emptyReactState.showReaction) ∨
    (foundNonemptyB (.ok sampleFoundResult) = false ∧
      hasSuggestionsB (.ok sampleFoundResult) = false ∧
      (handleReact ["H", "O"] (.ok sampleFoundResult) (.ok "ok")
        emptyReactState).suggestions = [] ∧
      (handleReact ["H", "O"] (.ok sampleFoundResult) (.ok "ok")
        emptyReactState).error.isSome = true ∧
      (handleReact ["H", "O"] (.ok sampleFoundResult) (.ok "ok")
        emptyReactState).reaction = emptyReactState.reaction ∧
      (handleReact ["H", "O"] (.ok sampleFoundResult) (.ok "ok")
        emptyReactState).showReaction = emptyReactState.showReaction) :=
  c2_react_outcomes ["H", "O"] (.ok sampleFoundResult) (.ok "ok")
    emptyReactState _ (by decide) rfl

/-- C7: in every run of handleReact with a non-empty selection, the
validation request is the first request issued; the explanation request is
issued only after the validation response arrived (it can only occupy the
second position of the request sequence) and only in runs whose validation
response has found true with a non-empty reactions list, in which case it
carries the id of the first found reaction. -/
theorem c7_sequential_requests :
    ∀ (symbols : List String) (vres : Except ThrownError ValidateResult)
      (level : String),
      symbols ≠ [] →
      (handleReactTrace symbols vres level).head?
          = some (.validate symbols) ∧
      (foundNonemptyB vres = false →
        handleReactTrace symbols vres level = [.validate symbols]) ∧
      (foundNonemptyB vres = true → ∃ r0,
        firstFoundReaction vres = some r0 ∧
        handleReactTrace symbols vres level
          = [.validate symbols, .explain r0.id level]) := by
  intro symbols vres level hne
  have hlen : ¬ (symbols.length < 1) := by
    cases symbols with
    | nil => exact absurd rfl hne
    | cons a l => simp
  cases vres with
  | error err =>
      simp [handleReactTrace, hlen, foundNonemptyB, firstFoundReaction]
  | ok result =>
      obtain ⟨found, reactions, suggestions⟩ := result
      cases found <;> rcases reactions with _ | (_ | ⟨r0, rrest⟩) <;>
        simp [handleReactTrace, hlen, foundNonemptyB, firstFoundReaction]

/-- C7 witness: the request sequence for a found reaction consists of the
validation request followed by the explanation request. -/
theorem c7_sequential_requests_witness :
    (handleReactTrace ["H", "O"] (.ok sampleFoundResult) "intermediate").head?
        = some (.validate ["H", "O"]) ∧
    (∃ r0, firstFoundReaction (.ok sampleFoundResult) = some r0 ∧
      handleReactTrace ["H", "O"] (.ok sampleFoundResult) "intermediate"
        = [.validate ["H", "O"], .explain r0.id "intermediate"]) :=
  ⟨(c7_sequential_requests ["H", "O"] (.ok sampleFoundResult) "intermediate"
      (by decide)).1,
   (c7_sequential_requests ["H", "O"] (.ok sampleFoundResult) "intermediate"
      (by decide)).2.2 (by decide)⟩

/-- C9: validateReaction delegates entirely to the service: the posted body
carries the symbol array unchanged as its elements field, a successful
response is returned unmodified, and a failed request throws the
server-provided error message when error.response?.data?.error is present
and the fixed generic message otherwise. -/
theorem c9_delegation :
    ∀ (transport : PostRequest → Except AxiosFailure ValidateResult)
      (symbols : List String),
      (validateRequest symbols).elements = symbols ∧
      (validateRequest symbols).url = "/reactions/validate/" ∧
      (∀ data, transport (validateRequest symbols) = .ok data →
        validateReaction transport symbols = .ok data) ∧
      (∀ e se, transport (validateRequest symbols) = .error e →
        e.responseError = some se →
        validateReaction transport symbols
          = .error { message := se.message }) ∧
      (∀ e, transport (validateRequest symbols) = .error e →
        e.responseError = none →
        validateReaction transport symbols
          = .error { message := genericValidateError }) := by
  intro transport symbols
  refine ⟨rfl, rfl, ?_, ?_, ?_⟩
  · intro data h
    simp [validateReaction, h]
  · intro e se h hse
    simp [validateReaction, h, hse]
  · intro e h hse
    simp [validateReaction, h, hse]

/-- Transport that answers every request with a fixed successful response. -/
def okTransport : PostRequest → Except AxiosFailure ValidateResult :=
  fun _ => .ok nothingFoundResult

/-- Transport that fails with a server error object. -/
def serverErrTransport : PostRequest → Except AxiosFailure ValidateResult :=
  fun _ => .error { responseError := some { message := "Elementos invalidos" } }

/-- Transport that fails without a server error object. -/
def bareErrTransport : PostRequest → Except AxiosFailure ValidateResult :=
  fun _ => .error { responseError := none }

/-- C9 witness: the delegation theorem instantiated on the three concrete
transports. -/
theorem c9_delegation_witness :
    validateReaction okTransport ["H", "O"] = .ok nothingFoundResult ∧
    validateReaction serverErrTransport ["H", "O"]
      = .error { message := "Elementos invalidos" } ∧
    validateReaction bareErrTransport ["H", "O"]
      = .error { message := genericValidateError } :=
  ⟨(c9_delegation okTransport ["H", "O"]).2.2.1 _ rfl,
   (c9_delegation serverErrTransport ["H", "O"]).2.2.2.1 _ _ rfl rfl,
   (c9_delegation bareErrTransport ["H", "O"]).2.2.2.2 _ rfl rfl⟩

/-- C3: for every atomic number with an entry in the static ELECTRON_SHELLS
table, getElectronShells returns exactly that table entry, and for every
other atomic number it runs the greedy fallback over the capacities
[2, 8, 18, 32, 32, 18, 8]. -/
theorem c3_electron_shells_lookup :
    (∀ p ∈ ELECTRON_SHELLS, getElectronShells p.1 = p.2) ∧
    (∀ z : Nat, ELECTRON_SHELLS.lookup z = none →
      getElectronShells z = fillShellsLoop z maxPerShell) := by
  constructor
  · decide
  · intro z h
    simp [getElectronShells, h]

/-- C3 witness: iron (26) is served from the table and scandium (21), which
has no table entry, from the fallback loop. -/
theorem c3_electron_shells_lookup_witness :
    getElectronShells 26 = [2, 8, 14, 2] ∧
    getElectronShells 21 = fillShellsLoop 21 maxPerShell :=
  ⟨c3_electron_shells_lookup.1 (26, [2, 8, 14, 2]) (by decide),
   c3_electron_shells_lookup.2 21 (by decide)⟩

/-- C6: for every atomic number from 1 to 118 the returned shell counts sum
to the atomic number, both for the table-backed getElectronShells of
ReactionViewer.jsx and for the fallback-only variant of
ExplanationPanel.jsx. -/
theorem c6_shell_sums (z : Nat) (h1 : 1 ≤ z) (h2 : z ≤ 118) :
    (getElectronShells z).sum = z ∧
    (atomicStructureGetElectronShells z).sum = z := by
  have key : ∀ n, n < 119 → 1 ≤ n →
      (getElectronShells n).sum = n ∧
      (atomicStructureGetElectronShells n).sum = n := by decide
  exact key z (by omega) h1

/-- C6 witness: the shell sums at iron (26). -/
theorem c6_shell_sums_witness :
    (getElectronShells 26).sum = 26 ∧
    (atomicStructureGetElectronShells 26).sum = 26 :=
  c6_shell_sums 26 (by decide) (by decide)

set_option maxRecDepth 100000 in
/-- C8: getElementBySymbol applied to the symbol of any elementsData entry
returns that very entry, and the 118 symbols are pairwise distinct even
after lower-casing, so the symbol is a case-insensitive unique key. -/
theorem c8_symbol_unique_key :
    (∀ e ∈ elementsData, getElementBySymbol e.symbol = some e) ∧
    ((elementsData.map (fun e => lowerString e.symbol)).Nodup) := by
  refine ⟨by decide, by decide⟩

/-- C8 witness: the lookup roundtrip at hydrogen. -/
theorem c8_symbol_unique_key_witness :
    getElementBySymbol "H" = some (ElementData.mk 1 "H" "nonmetal" 1 1) :=
  c8_symbol_unique_key.1 (ElementData.mk 1 "H" "nonmetal" 1 1) (by decide)

/-- C10: getGridPosition places the 118 elements in pairwise distinct cells
of the 10 by 18 grid; lanthanides occupy row 9 at columns 3 through 17,
actinides row 10 at columns 3 through 17, and every other element sits at
(period, group). -/
theorem c10_grid_positions :
    elementsData.length = 118 ∧
    (elementsData.map getGridPosition).Nodup ∧
    (∀ e ∈ elementsData,
      1 ≤ (getGridPosition e).1 ∧ (getGridPosition e).1 ≤ 10 ∧
      1 ≤ (getGridPosition e).2 ∧ (getGridPosition e).2 ≤ 18) ∧
    (∀ e ∈ elementsData, e.category = "lanthanide" →
      (getGridPosition e).1 = 9 ∧ 3 ≤ (getGridPosition e).2 ∧
      (getGridPosition e).2 ≤ 17 ∧
      (getGridPosition e).2 = e.atomicNumber - 54) ∧
    (∀ e ∈ elementsData, e.category = "actinide" →
      (getGridPosition e).1 = 10 ∧ 3 ≤ (getGridPosition e).2 ∧
      (getGridPosition e).2 ≤ 17 ∧
      (getGridPosition e).2 = e.atomicNumber - 86) ∧
    (∀ e ∈ elementsData, e.category ≠ "lanthanide" →
      e.category ≠ "actinide" →
      getGridPosition e = (e.period, e.group)) := by
  refine ⟨by decide, by decide, by decide, by decide, by decide, by decide⟩

/-- C10 witness: the grid cells of lanthanum, uranium and hydrogen. -/
theorem c10_grid_positions_witness :
    ((getGridPosition (ElementData.mk 57 "La" "lanthanide" 3 6)).1 = 9 ∧
      3 ≤ (getGridPosition (ElementData.mk 57 "La" "lanthanide" 3 6)).2 ∧
      (getGridPosition (ElementData.mk 57 "La" "lanthanide" 3 6)).2 ≤ 17 ∧
      (getGridPosition (ElementData.mk 57 "La" "lanthanide" 3 6)).2 = 57 - 54) ∧
    ((getGridPosition (ElementData.mk 92 "U" "actinide" 3 7)).1 = 10 ∧
      3 ≤ (getGridPosition (ElementData.mk 92 "U" "actinide" 3 7)).2 ∧
      (getGridPosition (ElementData.mk 92 "U" "actinide" 3 7)).2 ≤ 17 ∧
      (getGridPosition (ElementData.mk 92 "U" "actinide" 3 7)).2 = 92 - 86) ∧
    getGridPosition (ElementData.mk 1 "H" "nonmetal" 1 1) = (1, 1) :=
  ⟨c10_grid_positions.2.2.2.1 (ElementData.mk 57 "La" "lanthanide" 3 6)
      (by decide) rfl,
   c10_grid_positions.2.2.2.2.1 (ElementData.mk 92 "U" "actinide" 3 7)
      (by decide) rfl,
   c10_grid_positions.2.2.2.2.2 (ElementData.mk 1 "H" "nonmetal" 1 1)
      (by decide) (by decide) (by decide)⟩

/-- NaN absorbs on the left of multiplication. -/
theorem jmul_nan_left (x : JVal) : jmul JVal.nan x = JVal.nan := by
  cases x <;> rfl

/-- NaN absorbs on the right of subtraction. -/
theorem jsub_nan_right (x : JVal) : jsub x JVal.nan = JVal.nan := by
  cases x <;> rfl

/-- Zero divided by zero is NaN. -/
theorem jdiv_zero_zero : jdiv (JVal.fin 0) (JVal.fin 0) = JVal.nan := by
  norm_num [jdiv]

/-- C4: the nucleus particle generator divides zero by zero for a nucleus
with a single particle.  For hydrogen (atomic number 1, atomic mass 1.008)
the computed counts are one proton and zero neutrons, the generator yields
exactly one particle and it is a proton, but its y coordinate is NaN (so
not a finite number within the nucleus radius), for every choice of the
square root, cosine, sine, golden-angle and random inputs. -/
theorem c4_hydrogen_nan :
    ∀ (sqrtF cosF sinF : JVal → JVal) (goldenAngle : JVal)
      (rand : Nat → JVal),
      atomicModelCounts (some 1) (some (1008 / 1000)) = (1, 0) ∧
      (nucleusParticles 1 0 sqrtF cosF sinF goldenAngle rand).length = 1 ∧
      (nucleusParticles 1 0 sqrtF cosF sinF goldenAngle rand).map
        (fun p => p.y.isFinite) = [false] ∧
      (nucleusParticles 1 0 sqrtF cosF sinF goldenAngle rand).map
        (fun p => p.isProton) = [true] := by
  intro sqrtF cosF sinF goldenAngle rand
  refine ⟨?_, rfl, ?_, rfl⟩
  · simp only [atomicModelCounts, jsRound, Option.getD_some, Prod.mk.injEq]
    norm_num
  · have hy : ∀ s : JVal,
        jmul (jsub (JVal.fin 1)
          (jmul (jdiv (JVal.fin 0) (JVal.fin 0)) (JVal.fin 2))) s
          = JVal.nan := by
      intro s
      rw [jdiv_zero_zero, jmul_nan_left, jsub_nan_right, jmul_nan_left]
    have hrange : List.range 1 = [0] := rfl
    simp [nucleusParticles, hrange, hy, JVal.isFinite]

end SistemaReacciones
